import Mathlib

/-!
Verification development for the doc-agent repository.

The Python source (src/agent_planner.py, src/database.py, src/ocr_service.py)
is shallowly embedded below: the SQLite-backed `Database` becomes an
association list of document records plus an append-only audit list; the
external collaborators (decision oracle, OpenAI summarize/TTS/image calls,
the file system read by the OCR service) become explicit parameters, with
`Except String _` standing for "raises an exception / returns normally".
Python string operations `.strip()`, `.lower()` and the `in` substring test
are reimplemented on `List Char` to match Python semantics on the ASCII
inputs the planner manipulates.
-/

namespace DocAgent

/-- Python whitespace characters recognised by `str.strip()`. -/
def isPySpace (c : Char) : Bool :=
  c == ' ' || c == '\t' || c == '\n' || c == '\r' || c == '\x0b' || c == '\x0c'

/-- Embeds Python `s.strip()`: drop whitespace from both ends. -/
def pyStrip (s : String) : String :=
  ⟨((s.data.dropWhile isPySpace).reverse.dropWhile isPySpace).reverse⟩

/-- Embeds Python `s.lower()` (ASCII case folding, which covers every string
the planner compares against). -/
def pyLower (s : String) : String :=
  ⟨s.data.map Char.toLower⟩

/-- `leadEq needle hay` holds when `needle` occurs at the very front of `hay`. -/
def leadEq : List Char → List Char → Bool
  | [], _ => true
  | _ :: _, [] => false
  | a :: as, b :: bs => a == b && leadEq as bs

/-- `sliceFound needle hay` holds when `needle` occurs contiguously somewhere
in `hay` (Python `needle in hay`). -/
def sliceFound (needle : List Char) : List Char → Bool
  | [] => needle.isEmpty
  | h :: t => leadEq needle (h :: t) || sliceFound needle t

/-- Embeds the Python substring test `needle in hay`. -/
def strContains (hay needle : String) : Bool :=
  sliceFound needle.data hay.data

/-- Python truthiness of an optional string column: `NULL` and `""` are
falsy, everything else is truthy (`bool(doc["extracted_text"])`). -/
def present : Option String → Bool
  | none => false
  | some s => !s.data.isEmpty

/-- The closed action vocabulary of the planner (agent_planner.py line 89
and the string literals returned by `plan_next_step_rulebase`). -/
inductive Action where
  | extract_text
  | summarize
  | tts
  | generate_image
  | complete
deriving DecidableEq

/-- One row of the `documents` table (database.py `init_db`); `uploaded_at`
is an opaque timestamp the core never reads and is elided. -/
structure Doc where
  filename : String
  status : String
  extracted_text : Option String
  summary : Option String
  metadata_json : Option String
  tts_path : Option String
  image_path : Option String
  version : Nat
deriving DecidableEq

/-- One row of the append-only `audit` table (`created_at` elided as above). -/
structure AuditEntry where
  document_id : Nat
  action : String
  actor : String
  note : String
deriving DecidableEq

/-- The SQLite database: `documents` keyed by their AUTOINCREMENT id,
the next id to be assigned, and the `audit` table in insertion order. -/
structure Database where
  docs : List (Nat × Doc)
  nextId : Nat
  audit : List AuditEntry
deriving DecidableEq

/-- First row of the `documents` table whose id matches (`SELECT * FROM
documents WHERE id = ?` with `fetchone`). -/
def lookupDoc : List (Nat × Doc) → Nat → Option Doc
  | [], _ => none
  | (k, d) :: tl, j => if k = j then some d else lookupDoc tl j

/-- Embeds `Database.get_document`. -/
def get_document (db : Database) (document_id : Nat) : Option Doc :=
  lookupDoc db.docs document_id

/-- Embeds `Database.log_audit`: appends one row to the `audit` table. -/
def log_audit (db : Database) (document_id : Nat) (action actor note : String) :
    Database :=
  { db with audit := db.audit ++ [⟨document_id, action, actor, note⟩] }

/-- Embeds `Database.insert_document`; returns the updated store and the new
row id (`cursor.lastrowid`). -/
def insert_document (db : Database) (filename : String)
    (extracted_text : Option String) : Database × Nat :=
  let document_id := db.nextId
  let doc : Doc :=
    { filename := filename, status := "uploaded",
      extracted_text := extracted_text, summary := none,
      metadata_json := none, tts_path := none, image_path := none,
      version := 1 }
  let db1 : Database :=
    { db with docs := db.docs ++ [(document_id, doc)], nextId := document_id + 1 }
  (log_audit db1 document_id "insert" "system"
     ("Document " ++ filename ++ " uploaded"), document_id)

/-- The effect of `UPDATE documents SET ... WHERE id = ?`: rewrite the
matching row (if any) with `f`. -/
def setDoc (docs : List (Nat × Doc)) (i : Nat) (f : Doc → Doc) :
    List (Nat × Doc) :=
  docs.map (fun p => if p.1 = i then (p.1, f p.2) else p)

/-- `cursor.rowcount > 0` for the update statements: a row with this id
exists. -/
def docExists (db : Database) (i : Nat) : Bool :=
  db.docs.any (fun p => p.1 == i)

/-- Embeds `Database.update_extracted_text`: set the column, and log one
audit row exactly when the update matched a row. -/
def update_extracted_text (db : Database) (document_id : Nat)
    (extracted_text : String) : Database × Bool :=
  let f : Doc → Doc := fun d => { d with extracted_text := some extracted_text }
  let db' : Database := { db with docs := setDoc db.docs document_id f }
  if docExists db document_id then
    (log_audit db' document_id "update" "system" "Extracted text updated", true)
  else (db', false)

/-- Embeds `Database.update_summary`. -/
def update_summary (db : Database) (document_id : Nat) (summary : String) :
    Database × Bool :=
  let f : Doc → Doc := fun d => { d with summary := some summary }
  let db' : Database := { db with docs := setDoc db.docs document_id f }
  if docExists db document_id then
    (log_audit db' document_id "update" "system" "Summary updated", true)
  else (db', false)

/-- Embeds `Database.update_tts_path`. -/
def update_tts_path (db : Database) (doc_id : Nat) (tts_path : String) :
    Database × Bool :=
  let f : Doc → Doc := fun d => { d with tts_path := some tts_path }
  let db' : Database := { db with docs := setDoc db.docs doc_id f }
  if docExists db doc_id then
    (log_audit db' doc_id "update" "system" ("TTS path updated: " ++ tts_path),
     true)
  else (db', false)

/-- Embeds `Database.update_image_path`. -/
def update_image_path (db : Database) (doc_id : Nat) (image_path : String) :
    Database × Bool :=
  let f : Doc → Doc := fun d => { d with image_path := some image_path }
  let db' : Database := { db with docs := setDoc db.docs doc_id f }
  if docExists db doc_id then
    (log_audit db' doc_id "update" "system"
       ("Image path updated: " ++ image_path), true)
  else (db', false)

/-- Embeds `Database.update_status`. -/
def update_status (db : Database) (doc_id : Nat) (status : String) :
    Database × Bool :=
  let f : Doc → Doc := fun d => { d with status := status }
  let db' : Database := { db with docs := setDoc db.docs doc_id f }
  if docExists db doc_id then
    (log_audit db' doc_id "update" "system" ("Status updated to: " ++ status),
     true)
  else (db', false)

/-- Behaviour of the file system / external OCR libraries as seen by
`OCRService`: what `fitz.open` + `page.get_text` respectively
`PIL.Image.open` + `pytesseract.image_to_string` do on a given path —
either raise (`Except.error`, e.g. `FileNotFoundError` for a missing or
unreadable file) or return the raw text. -/
structure FS where
  pdf_read : String → Except String String
  image_read : String → Except String String

/-- Embeds Python `os.path.splitext(path)[1]`: the extension (with dot) of
the basename, empty when the basename has no dot beyond leading dots. -/
def extOf (path : String) : String :=
  let base := (path.data.reverse.takeWhile (fun c => !(c == '/'))).reverse
  let core := base.dropWhile (fun c => c == '.')
  if core.any (fun c => c == '.') then
    ⟨'.' :: (core.reverse.takeWhile (fun c => !(c == '.'))).reverse⟩
  else ""

/-- Embeds `OCRService.extract_text` (ocr_service.py lines 7-17): dispatch on
the lowercased extension; unsupported types return `""`; the PDF and image
readers are called unguarded, so their exceptions propagate (`.strip()` is
applied to a successfully read text, per `_extract_from_pdf` /
`_extract_from_image`). -/
def ocr_extract_text (fs : FS) (file_path : String) : Except String String :=
  let ext := pyLower (extOf file_path)
  if ext == ".pdf" then (fs.pdf_read file_path).map pyStrip
  else if ext == ".png" || ext == ".jpg" || ext == ".jpeg" then
    (fs.image_read file_path).map pyStrip
  else Except.ok ""

/-- The `valid_actions` list of agent_planner.py line 89, paired with the
Action each string token denotes. -/
def valid_actions : List (String × Action) :=
  [("extract_text", Action.extract_text), ("summarize", Action.summarize),
   ("tts", Action.tts), ("generate_image", Action.generate_image),
   ("complete", Action.complete)]

/-- The containment loop of agent_planner.py lines 93-96: first listed token
contained in the response wins. -/
def find_containment (raw : String) : List (String × Action) → Option Action
  | [] => none
  | (tok, a) :: rest =>
    if strContains raw tok then some a else find_containment raw rest

/-- The parsing stage of `plan_next_step_agentic` (lines 86-110) applied to
the already normalised oracle response: containment over `valid_actions`,
then the keyword heuristics in source order; `none` means "could not parse"
(the branch that falls back to the rule-based planner). -/
def parse_oracle (raw : String) : Option Action :=
  match find_containment raw valid_actions with
  | some a => some a
  | none =>
    if strContains raw "summar" then some Action.summarize
    else if strContains raw "text" && strContains raw "extract" then
      some Action.extract_text
    else if strContains raw "tts" || strContains raw "speech" ||
        strContains raw "audio" then some Action.tts
    else if strContains raw "image" then some Action.generate_image
    else if strContains raw "complete" || strContains raw "done" ||
        strContains raw "finish" then some Action.complete
    else none

/-- Embeds `AgentPlanner.plan_next_step_rulebase` (lines 118-157). -/
def plan_next_step_rulebase (db : Database) (doc_id : Nat) : Option Action :=
  match get_document db doc_id with
  | none => none
  | some doc =>
    if !present doc.extracted_text then some Action.extract_text
    else if !present doc.summary then some Action.summarize
    else if !present doc.tts_path then some Action.tts
    else if !present doc.image_path then some Action.generate_image
    else some Action.complete

/-- Embeds `AgentPlanner.plan_next_step_agentic` (lines 39-116). The
decision oracle (the chat-completion call) is an external collaborator, so
its raw reply `oracle_output` is a parameter; the code normalises it with
`.strip().lower()`, parses it, and falls back to the rule-based planner
when no token and no heuristic matches. Returns `none` exactly when the
document does not exist (line 50-51). -/
def plan_next_step_agentic (db : Database) (doc_id : Nat)
    (oracle_output : String) : Option Action :=
  match get_document db doc_id with
  | none => none
  | some _ =>
    let raw_response := pyLower (pyStrip oracle_output)
    match parse_oracle raw_response with
    | some a => some a
    | none => plan_next_step_rulebase db doc_id

/-- Embeds `AgentPlanner.summarize_document` (lines 159-197). The OpenAI
call's outcome is the parameter `api`: an exception or the reply content.
Note the function reads `doc["extracted_text"]` and calls the API with no
precondition check at all; a missing document makes the subscript raise. -/
def summarize_document (db : Database) (doc_id : Nat)
    (api : Except String String) : Except String (Database × String) :=
  match get_document db doc_id with
  | none => Except.error "TypeError: NoneType is not subscriptable"
  | some _ =>
    match api with
    | Except.error e => Except.error e
    | Except.ok content =>
      let summary := pyStrip content
      let db' := (update_summary db doc_id summary).1
      Except.ok (db', summary)

/-- Embeds `AgentPlanner.text_to_speech` (lines 212-247). Declines (returns
the store untouched and no path) when the summary is falsy; otherwise the
TTS call either raises or succeeds, after which the fixed audio path is
persisted. -/
def text_to_speech (db : Database) (doc_id : Nat)
    (speech : Except String Unit) : Except String (Database × Option String) :=
  match get_document db doc_id with
  | none => Except.error "TypeError: NoneType is not subscriptable"
  | some doc =>
    if !present doc.summary then Except.ok (db, none)
    else
      match speech with
      | Except.error e => Except.error e
      | Except.ok _ =>
        let audio_path := "output/audio/doc_" ++ toString doc_id ++ ".mp3"
        let db' := (update_tts_path db doc_id audio_path).1
        Except.ok (db', some audio_path)

/-- Embeds `AgentPlanner.generate_image_from_doc` (lines 249-291); same
shape as `text_to_speech` with the image path. -/
def generate_image_from_doc (db : Database) (doc_id : Nat)
    (image : Except String Unit) : Except String (Database × Option String) :=
  match get_document db doc_id with
  | none => Except.error "TypeError: NoneType is not subscriptable"
  | some doc =>
    if !present doc.summary then Except.ok (db, none)
    else
      match image with
      | Except.error e => Except.error e
      | Except.ok _ =>
        let image_path := "output/images/doc_" ++ toString doc_id ++ ".png"
        let db' := (update_image_path db doc_id image_path).1
        Except.ok (db', some image_path)

/-- The external world's behaviour during one iteration of the workflow
loop: the oracle's raw reply, whether `os.path.exists` holds for the
upload, and the outcomes of the four external calls the iteration might
make. -/
structure StepEnv where
  oracle_output : String
  file_exists : Bool
  ocr_result : Except String String
  summarize_result : Except String String
  tts_result : Except String Unit
  image_result : Except String Unit

/-- Outcome of dispatching one action inside the loop body: the store
afterwards, the progress events yielded, whether the iteration `break`s,
and an exception that escaped the iteration uncaught (only possible in the
unguarded `extract_text` branch). -/
structure ExecResult where
  db : Database
  events : List String
  brk : Bool
  exn : Option String

/-- The dispatch section of `run_agentic_workflow` (lines 320-370), one
action. `summarize` / `tts` / `generate_image` run inside `try/except`
blocks; `extract_text` does not, so an OCR exception is returned as `exn`
(the store is unchanged there because the raise precedes every write).
Event strings keep the text of the yielded status messages, emoji elided. -/
def exec_action (db : Database) (doc_id : Nat) (e : StepEnv) :
    Action → ExecResult
  | Action.complete =>
    let db' := (update_status db doc_id "complete").1
    ⟨db', ["Workflow complete!"], true, none⟩
  | Action.extract_text =>
    match get_document db doc_id with
    | none => ⟨db, [], false, none⟩
    | some doc =>
      if e.file_exists then
        match e.ocr_result with
        | Except.error ex => ⟨db, [], false, some ex⟩
        | Except.ok text =>
          let db1 := (update_extracted_text db doc_id text).1
          let db2 := (update_status db1 doc_id "text_extracted").1
          ⟨db2, ["Text extracted"], false, none⟩
      else
        ⟨db, ["File not found: data/uploads/" ++ doc.filename], false, none⟩
  | Action.summarize =>
    match summarize_document db doc_id e.summarize_result with
    | Except.error ex => ⟨db, ["Error: " ++ ex], false, none⟩
    | Except.ok (db1, _) =>
      let db2 := (update_status db1 doc_id "summarized").1
      ⟨db2, ["Summarized"], false, none⟩
  | Action.tts =>
    match text_to_speech db doc_id e.tts_result with
    | Except.error ex => ⟨db, ["Error: " ++ ex], false, none⟩
    | Except.ok (db1, _) =>
      let db2 := (update_status db1 doc_id "tts_done").1
      ⟨db2, ["TTS generated"], false, none⟩
  | Action.generate_image =>
    match generate_image_from_doc db doc_id e.image_result with
    | Except.error ex => ⟨db, ["Error: " ++ ex], false, none⟩
    | Except.ok (db1, _) =>
      let db2 := (update_status db1 doc_id "image_generated").1
      ⟨db2, ["Image generated"], false, none⟩

/-- Lines 310-318 of the loop body: take the agentic planner's result, and
on `None` (our model's only invalid value — every parsed reply is already a
member of the action vocabulary) fall back to the rule-based planner;
`none` here means the `break` on line 318. -/
def plan_for_step (db : Database) (doc_id : Nat) (oracle_output : String) :
    Option Action :=
  match plan_next_step_agentic db doc_id oracle_output with
  | some a => some a
  | none => plan_next_step_rulebase db doc_id

/-- Observable result of running the workflow generator: the final store,
the yielded progress events in order, the number of iterations that
dispatched an action, and the exception (if any) that escaped the
generator to its caller. -/
structure RunResult where
  db : Database
  events : List String
  actions : Nat
  exn : Option String

/-- The `while step < max_steps` loop of `run_agentic_workflow`
(lines 293-375), as fuel recursion: `fuel = max_steps - step`, `env`
gives the external world's behaviour at each iteration index. -/
def run_loop (doc_id : Nat) (env : Nat → StepEnv) :
    Nat → Database → Nat → RunResult
  | 0, db, _ => ⟨db, [], 0, none⟩
  | fuel + 1, db, step =>
    match plan_for_step db doc_id (env step).oracle_output with
    | none => ⟨db, [], 0, none⟩
    | some a =>
      let r := exec_action db doc_id (env step) a
      match r.exn with
      | some ex => ⟨r.db, r.events, 1, some ex⟩
      | none =>
        if r.brk then ⟨r.db, r.events, 1, none⟩
        else
          let rest := run_loop doc_id env fuel r.db (step + 1)
          ⟨rest.db, r.events ++ rest.events, 1 + rest.actions, rest.exn⟩

/-- Embeds `AgentPlanner.run_agentic_workflow(doc_id, max_steps)` (default
`max_steps` is 10 in the source). -/
def run_agentic_workflow (db : Database) (doc_id : Nat) (env : Nat → StepEnv)
    (max_steps : Nat) : RunResult :=
  run_loop doc_id env max_steps db 0

/-- Modelled from the spec: "evaluates, in fixed order, four presence
checks — extracted_text, summary, tts_path, image_path — returning the
Action tied to the first missing field; if all four are present, returns
complete". -/
def first_missing_action (doc : Doc) : Action :=
  if !present doc.extracted_text then Action.extract_text
  else if !present doc.summary then Action.summarize
  else if !present doc.tts_path then Action.tts
  else if !present doc.image_path then Action.generate_image
  else Action.complete

/-- The document with id `i` exists and its field selected by `f` is truthy
(non-NULL and non-empty). -/
def fieldPresent (db : Database) (i : Nat) (f : Doc → Option String) : Bool :=
  match get_document db i with
  | none => false
  | some d => present (f d)

/-- The four pipeline output columns never regress from present to absent
between two stores. -/
def monoStep (db db' : Database) : Prop :=
  ∀ i : Nat,
    (fieldPresent db i Doc.extracted_text = true →
      fieldPresent db' i Doc.extracted_text = true) ∧
    (fieldPresent db i Doc.summary = true →
      fieldPresent db' i Doc.summary = true) ∧
    (fieldPresent db i Doc.tts_path = true →
      fieldPresent db' i Doc.tts_path = true) ∧
    (fieldPresent db i Doc.image_path = true →
      fieldPresent db' i Doc.image_path = true)

/-- The capability results an iteration may write are non-degenerate: a
successful OCR read yields non-empty text and a successful summarization
reply is non-empty once stripped. -/
def envClean (e : StepEnv) : Bool :=
  (match e.ocr_result with
   | Except.error _ => true
   | Except.ok t => !t.data.isEmpty) &&
  (match e.summarize_result with
   | Except.error _ => true
   | Except.ok c => !(pyStrip c).data.isEmpty)

/-- `db'` extends the audit table of `db` by exactly `k` rows at the end. -/
def appendsAudit (db db' : Database) (k : Nat) : Prop :=
  ∃ es, db'.audit = db.audit ++ es ∧ es.length = k

/-- The four pipeline output columns of a record, for stating that an
iteration leaves them untouched. -/
def contentFields (d : Doc) :
    Option String × Option String × Option String × Option String :=
  (d.extracted_text, d.summary, d.tts_path, d.image_path)

/-- A store with no documents and no audit rows. -/
def dbEmpty : Database := ⟨[], 1, []⟩

/-- A freshly uploaded record: only `filename` set (spec Scenario A). -/
def docFresh : Doc := ⟨"a.pdf", "uploaded", none, none, none, none, none, 1⟩

/-- Store holding just the fresh record under id 1. -/
def dbFresh : Database := ⟨[(1, docFresh)], 2, []⟩

/-- A record whose text has been extracted (`"hello"`), all else empty. -/
def docHello : Doc := ⟨"a.pdf", "uploaded", some "hello", none, none, none, none, 1⟩

/-- Store holding just `docHello` under id 1. -/
def dbHello : Database := ⟨[(1, docHello)], 2, []⟩

/-- World in which the oracle keeps answering `"tts"` and every external
call would succeed. -/
def envTtsDecline : Nat → StepEnv :=
  fun _ => ⟨"tts", true, Except.ok "text", Except.ok "sum", Except.ok (), Except.ok ()⟩

/-- World in which the oracle answers `"extract_text"` and the OCR call
raises `boom`. -/
def envBadOcr : Nat → StepEnv :=
  fun _ => ⟨"extract_text", true, Except.error "boom", Except.ok "sum", Except.ok (), Except.ok ()⟩

/-- World in which the oracle answers `"extract_text"` and the OCR call
succeeds with empty text (e.g. a blank page). -/
def envEmptyOcr : Nat → StepEnv :=
  fun _ => ⟨"extract_text", true, Except.ok "", Except.ok "sum", Except.ok (), Except.ok ()⟩

/-- World in which every external call succeeds with non-degenerate data
and the oracle is silent (empty reply, unparseable). -/
def envGood : Nat → StepEnv :=
  fun _ => ⟨"", true, Except.ok "some text", Except.ok "a summary", Except.ok (), Except.ok ()⟩

/-- File system on which every read raises `FileNotFoundError`. -/
def fsMissing : FS :=
  ⟨fun _ => Except.error "FileNotFoundError", fun _ => Except.error "FileNotFoundError"⟩

theorem lookupDoc_setDoc (docs : List (Nat × Doc)) (i : Nat) (f : Doc → Doc)
    (j : Nat) :
    lookupDoc (setDoc docs i f) j =
      if j = i then (lookupDoc docs j).map f else lookupDoc docs j := by
  induction docs with
  | nil => simp [setDoc, lookupDoc]
  | cons hd tl ih =>
    obtain ⟨k, d⟩ := hd
    by_cases hki : k = i
    · have hhead : setDoc ((k, d) :: tl) i f = (k, f d) :: setDoc tl i f := by
        simp [setDoc, hki]
      rw [hhead]
      by_cases hkj : k = j
      · subst hkj
        simp [lookupDoc, hki]
      · simp [lookupDoc, hkj, ih]
    · have hhead : setDoc ((k, d) :: tl) i f = (k, d) :: setDoc tl i f := by
        simp [setDoc, hki]
      rw [hhead]
      by_cases hkj : k = j
      · subst hkj
        simp [lookupDoc, hki]
      · simp [lookupDoc, hkj, ih]

theorem any_key_eq_isSome (docs : List (Nat × Doc)) (i : Nat) :
    docs.any (fun p => p.1 == i) = (lookupDoc docs i).isSome := by
  induction docs with
  | nil => simp [lookupDoc]
  | cons hd tl ih =>
    obtain ⟨k, d⟩ := hd
    by_cases h : k = i <;> simp [lookupDoc, h, ih]

theorem docExists_eq_isSome (db : Database) (i : Nat) :
    docExists db i = (get_document db i).isSome :=
  any_key_eq_isSome db.docs i

theorem get_log_audit (db : Database) (i : Nat) (a act n : String) (j : Nat) :
    get_document (log_audit db i a act n) j = get_document db j := rfl

theorem get_update_extracted_text (db : Database) (i : Nat) (t : String)
    (j : Nat) :
    get_document (update_extracted_text db i t).1 j =
      if j = i then
        (get_document db j).map (fun d => { d with extracted_text := some t })
      else get_document db j := by
  unfold update_extracted_text
  by_cases h : docExists db i <;>
    simp [h, get_document, log_audit, lookupDoc_setDoc]

theorem get_update_summary (db : Database) (i : Nat) (s : String) (j : Nat) :
    get_document (update_summary db i s).1 j =
      if j = i then
        (get_document db j).map (fun d => { d with summary := some s })
      else get_document db j := by
  unfold update_summary
  by_cases h : docExists db i <;>
    simp [h, get_document, log_audit, lookupDoc_setDoc]

theorem get_update_tts_path (db : Database) (i : Nat) (p : String) (j : Nat) :
    get_document (update_tts_path db i p).1 j =
      if j = i then
        (get_document db j).map (fun d => { d with tts_path := some p })
      else get_document db j := by
  unfold update_tts_path
  by_cases h : docExists db i <;>
    simp [h, get_document, log_audit, lookupDoc_setDoc]

theorem get_update_image_path (db : Database) (i : Nat) (p : String) (j : Nat) :
    get_document (update_image_path db i p).1 j =
      if j = i then
        (get_document db j).map (fun d => { d with image_path := some p })
      else get_document db j := by
  unfold update_image_path
  by_cases h : docExists db i <;>
    simp [h, get_document, log_audit, lookupDoc_setDoc]

theorem get_update_status (db : Database) (i : Nat) (s : String) (j : Nat) :
    get_document (update_status db i s).1 j =
      if j = i then
        (get_document db j).map (fun d => { d with status := s })
      else get_document db j := by
  unfold update_status
  by_cases h : docExists db i <;>
    simp [h, get_document, log_audit, lookupDoc_setDoc]

theorem audit_update_extracted_text (db : Database) (i : Nat) (t : String) :
    (update_extracted_text db i t).1.audit =
      if docExists db i then
        db.audit ++ [⟨i, "update", "system", "Extracted text updated"⟩]
      else db.audit := by
  unfold update_extracted_text
  by_cases h : docExists db i <;> simp [h, log_audit]

theorem audit_update_summary (db : Database) (i : Nat) (s : String) :
    (update_summary db i s).1.audit =
      if docExists db i then
        db.audit ++ [⟨i, "update", "system", "Summary updated"⟩]
      else db.audit := by
  unfold update_summary
  by_cases h : docExists db i <;> simp [h, log_audit]

theorem audit_update_tts_path (db : Database) (i : Nat) (p : String) :
    (update_tts_path db i p).1.audit =
      if docExists db i then
        db.audit ++ [⟨i, "update", "system", "TTS path updated: " ++ p⟩]
      else db.audit := by
  unfold update_tts_path
  by_cases h : docExists db i <;> simp [h, log_audit]

theorem audit_update_image_path (db : Database) (i : Nat) (p : String) :
    (update_image_path db i p).1.audit =
      if docExists db i then
        db.audit ++ [⟨i, "update", "system", "Image path updated: " ++ p⟩]
      else db.audit := by
  unfold update_image_path
  by_cases h : docExists db i <;> simp [h, log_audit]

theorem audit_update_status (db : Database) (i : Nat) (s : String) :
    (update_status db i s).1.audit =
      if docExists db i then
        db.audit ++ [⟨i, "update", "system", "Status updated to: " ++ s⟩]
      else db.audit := by
  unfold update_status
  by_cases h : docExists db i <;> simp [h, log_audit]

theorem audit_insert_document (db : Database) (fn : String)
    (ot : Option String) :
    (insert_document db fn ot).1.audit =
      db.audit ++ [⟨db.nextId, "insert", "system",
        "Document " ++ fn ++ " uploaded"⟩] := by
  simp [insert_document, log_audit]

theorem appendsAudit_of_ite (db db' : Database) (entry : AuditEntry) (c : Bool)
    (h : db'.audit = if c then db.audit ++ [entry] else db.audit) :
    appendsAudit db db' (if c then 1 else 0) := by
  cases c <;> simp [appendsAudit, h]

/-- Claim C1: for every existing document record, `plan_next_step_rulebase`
returns the action tied to the first missing field in the fixed order
extracted_text, summary, tts_path, image_path, returns `complete` when all
four are present, and returns the not-found signal `none` when no record
with the given id exists. -/
theorem rulebase_plans_first_missing (db : Database) (doc_id : Nat) :
    plan_next_step_rulebase db doc_id =
      (get_document db doc_id).map first_missing_action := by
  cases h : get_document db doc_id with
  | none => simp [plan_next_step_rulebase, h]
  | some doc =>
    simp only [plan_next_step_rulebase, h, first_missing_action, Option.map]
    cases h1 : present doc.extracted_text <;>
      cases h2 : present doc.summary <;>
        cases h3 : present doc.tts_path <;>
          cases h4 : present doc.image_path <;>
            simp [h1, h2, h3, h4]

/-- Claim C2: for any oracle output whose normalised form (strip then lowercase)
contains none of the five action tokens and matches none of the keyword
heuristics (no "summar", not both "text" and "extract", no "speech" or
"audio", no "image", no "done" or "finish"), `plan_next_step_agentic`
returns exactly what `plan_next_step_rulebase` returns for the same id. -/
theorem agentic_unparsed_falls_back (db : Database) (doc_id : Nat)
    (out : String)
    (h1 : strContains (pyLower (pyStrip out)) "extract_text" = false)
    (h2 : strContains (pyLower (pyStrip out)) "summarize" = false)
    (h3 : strContains (pyLower (pyStrip out)) "tts" = false)
    (h4 : strContains (pyLower (pyStrip out)) "generate_image" = false)
    (h5 : strContains (pyLower (pyStrip out)) "complete" = false)
    (h6 : strContains (pyLower (pyStrip out)) "summar" = false)
    (h7 : strContains (pyLower (pyStrip out)) "text" = false ∨
          strContains (pyLower (pyStrip out)) "extract" = false)
    (h8 : strContains (pyLower (pyStrip out)) "speech" = false)
    (h9 : strContains (pyLower (pyStrip out)) "audio" = false)
    (h10 : strContains (pyLower (pyStrip out)) "image" = false)
    (h11 : strContains (pyLower (pyStrip out)) "done" = false)
    (h12 : strContains (pyLower (pyStrip out)) "finish" = false) :
    plan_next_step_agentic db doc_id out = plan_next_step_rulebase db doc_id := by
  have hp : parse_oracle (pyLower (pyStrip out)) = none := by
    rcases h7 with h7 | h7 <;>
      simp [parse_oracle, find_containment, valid_actions,
        h1, h2, h3, h4, h5, h6, h7, h8, h9, h10, h11, h12]
  cases hd : get_document db doc_id with
  | none =>
    simp [plan_next_step_agentic, plan_next_step_rulebase, hd]
  | some doc =>
    simp [plan_next_step_agentic, hd, hp]

/-- Witness for C2 at the spec's Scenario E: the oracle reply "xyzzy"
matches nothing, and the planner falls back to the rule-based result. -/
theorem agentic_unparsed_falls_back_witness :
    plan_next_step_agentic dbFresh 1 "xyzzy" = plan_next_step_rulebase dbFresh 1 :=
  agentic_unparsed_falls_back dbFresh 1 "xyzzy" (by decide) (by decide)
    (by decide) (by decide) (by decide) (by decide) (Or.inl (by decide))
    (by decide) (by decide) (by decide) (by decide) (by decide)

/-- Claim C7: the oracle-output parser checks containment of the five action
tokens in listed order, returning the first contained one; on no
containment match it applies the keyword heuristics in fixed order
(summarization, extraction requiring both "text" and "extract", speech
("tts"/"speech"/"audio"), image, completion ("complete"/"done"/"finish"));
and the reply "I think you should summarize this now" parses to
`summarize` via the containment match. -/
theorem oracle_parse_order :
    (∀ raw, strContains raw "extract_text" = true →
      parse_oracle raw = some Action.extract_text) ∧
    (∀ raw, strContains raw "extract_text" = false →
      strContains raw "summarize" = true →
      parse_oracle raw = some Action.summarize) ∧
    (∀ raw, strContains raw "extract_text" = false →
      strContains raw "summarize" = false →
      strContains raw "tts" = true →
      parse_oracle raw = some Action.tts) ∧
    (∀ raw, strContains raw "extract_text" = false →
      strContains raw "summarize" = false →
      strContains raw "tts" = false →
      strContains raw "generate_image" = true →
      parse_oracle raw = some Action.generate_image) ∧
    (∀ raw, strContains raw "extract_text" = false →
      strContains raw "summarize" = false →
      strContains raw "tts" = false →
      strContains raw "generate_image" = false →
      strContains raw "complete" = true →
      parse_oracle raw = some Action.complete) ∧
    (∀ raw, strContains raw "extract_text" = false →
      strContains raw "summarize" = false →
      strContains raw "tts" = false →
      strContains raw "generate_image" = false →
      strContains raw "complete" = false →
      strContains raw "summar" = true →
      parse_oracle raw = some Action.summarize) ∧
    (∀ raw, strContains raw "extract_text" = false →
      strContains raw "summarize" = false →
      strContains raw "tts" = false →
      strContains raw "generate_image" = false →
      strContains raw "complete" = false →
      strContains raw "summar" = false →
      strContains raw "text" = true →
      strContains raw "extract" = true →
      parse_oracle raw = some Action.extract_text) ∧
    (∀ raw, strContains raw "extract_text" = false →
      strContains raw "summarize" = false →
      strContains raw "tts" = false →
      strContains raw "generate_image" = false →
      strContains raw "complete" = false →
      strContains raw "summar" = false →
      (strContains raw "text" = false ∨ strContains raw "extract" = false) →
      (strContains raw "speech" = true ∨ strContains raw "audio" = true) →
      parse_oracle raw = some Action.tts) ∧
    (∀ raw, strContains raw "extract_text" = false →
      strContains raw "summarize" = false →
      strContains raw "tts" = false →
      strContains raw "generate_image" = false →
      strContains raw "complete" = false →
      strContains raw "summar" = false →
      (strContains raw "text" = false ∨ strContains raw "extract" = false) →
      strContains raw "speech" = false →
      strContains raw "audio" = false →
      strContains raw "image" = true →
      parse_oracle raw = some Action.generate_image) ∧
    (∀ raw, strContains raw "extract_text" = false →
      strContains raw "summarize" = false →
      strContains raw "tts" = false →
      strContains raw "generate_image" = false →
      strContains raw "complete" = false →
      strContains raw "summar" = false →
      (strContains raw "text" = false ∨ strContains raw "extract" = false) →
      strContains raw "speech" = false →
      strContains raw "audio" = false →
      strContains raw "image" = false →
      (strContains raw "done" = true ∨ strContains raw "finish" = true) →
      parse_oracle raw = some Action.complete) ∧
    parse_oracle (pyLower (pyStrip "I think you should summarize this now")) =
      some Action.summarize := by
  refine ⟨?_, ?_, ?_, ?_, ?_, ?_, ?_, ?_, ?_, ?_, ?_⟩
  · intro raw h1
    simp [parse_oracle, find_containment, valid_actions, h1]
  · intro raw h1 h2
    simp [parse_oracle, find_containment, valid_actions, h1, h2]
  · intro raw h1 h2 h3
    simp [parse_oracle, find_containment, valid_actions, h1, h2, h3]
  · intro raw h1 h2 h3 h4
    simp [parse_oracle, find_containment, valid_actions, h1, h2, h3, h4]
  · intro raw h1 h2 h3 h4 h5
    simp [parse_oracle, find_containment, valid_actions, h1, h2, h3, h4, h5]
  · intro raw h1 h2 h3 h4 h5 h6
    simp [parse_oracle, find_containment, valid_actions, h1, h2, h3, h4, h5, h6]
  · intro raw h1 h2 h3 h4 h5 h6 h7 h8
    simp [parse_oracle, find_containment, valid_actions,
      h1, h2, h3, h4, h5, h6, h7, h8]
  · intro raw h1 h2 h3 h4 h5 h6 h7 h8
    rcases h7 with h7 | h7 <;> rcases h8 with h8 | h8 <;>
      simp [parse_oracle, find_containment, valid_actions,
        h1, h2, h3, h4, h5, h6, h7, h8]
  · intro raw h1 h2 h3 h4 h5 h6 h7 h8 h9 h10
    rcases h7 with h7 | h7 <;>
      simp [parse_oracle, find_containment, valid_actions,
        h1, h2, h3, h4, h5, h6, h7, h8, h9, h10]
  · intro raw h1 h2 h3 h4 h5 h6 h7 h8 h9 h10 h11
    rcases h7 with h7 | h7 <;> rcases h11 with h11 | h11 <;>
      simp [parse_oracle, find_containment, valid_actions,
        h1, h2, h3, h4, h5, h6, h7, h8, h9, h10, h11]
  · decide

/-- Witness for C7: concrete applications of the containment-order parts,
including the spec's Scenario D conjunct. -/
theorem oracle_parse_order_witness :
    parse_oracle "please tts now" = some Action.tts :=
  oracle_parse_order.2.2.1 "please tts now" (by decide) (by decide) (by decide)

/-- Claim C10: invoking the workflow on an absent document id yields no progress
event and performs no store write: both planners return `none` and the
loop breaks before dispatching any action. -/
theorem workflow_absent_doc (db : Database) (doc_id : Nat)
    (env : Nat → StepEnv) (max_steps : Nat)
    (h : get_document db doc_id = none) :
    (∀ s, plan_next_step_agentic db doc_id s = none) ∧
    plan_next_step_rulebase db doc_id = none ∧
    run_agentic_workflow db doc_id env max_steps = ⟨db, [], 0, none⟩ := by
  have hag : ∀ s, plan_next_step_agentic db doc_id s = none := by
    intro s
    simp [plan_next_step_agentic, h]
  have hrb : plan_next_step_rulebase db doc_id = none := by
    simp [plan_next_step_rulebase, h]
  refine ⟨hag, hrb, ?_⟩
  unfold run_agentic_workflow
  cases max_steps with
  | zero => rfl
  | succ n =>
    have hplan : plan_for_step db doc_id (env 0).oracle_output = none := by
      simp [plan_for_step, hag, hrb]
    simp [run_loop, hplan]

/-- Witness for C10 on the empty store. -/
theorem workflow_absent_doc_witness :
    run_agentic_workflow dbEmpty 7 envGood 10 = ⟨dbEmpty, [], 0, none⟩ :=
  (workflow_absent_doc dbEmpty 7 envGood 10 (by decide)).2.2

/-- Claim C9 (counterexample): a mutating store call that appends no audit
entry — `update_status` on an id with no row reports failure and leaves
the audit table empty. -/
theorem audit_missing_row_counterexample :
    (update_status dbEmpty 1 "complete").2 = false ∧
    (update_status dbEmpty 1 "complete").1.audit.length = 0 := by decide

/-- Claim C9 (amended): `insert_document` always appends exactly one audit
entry; each update call appends exactly one entry when a row with the id
exists and none otherwise; and every store operation preserves the
existing audit rows unchanged at their positions (append-only). -/
theorem store_audit_contract (db : Database) (i : Nat) (fn v : String)
    (ot : Option String) :
    appendsAudit db (insert_document db fn ot).1 1 ∧
    appendsAudit db (update_extracted_text db i v).1
      (if (get_document db i).isSome then 1 else 0) ∧
    appendsAudit db (update_summary db i v).1
      (if (get_document db i).isSome then 1 else 0) ∧
    appendsAudit db (update_tts_path db i v).1
      (if (get_document db i).isSome then 1 else 0) ∧
    appendsAudit db (update_image_path db i v).1
      (if (get_document db i).isSome then 1 else 0) ∧
    appendsAudit db (update_status db i v).1
      (if (get_document db i).isSome then 1 else 0) := by
  have e1 := appendsAudit_of_ite db (update_extracted_text db i v).1 _ _
    (audit_update_extracted_text db i v)
  have e2 := appendsAudit_of_ite db (update_summary db i v).1 _ _
    (audit_update_summary db i v)
  have e3 := appendsAudit_of_ite db (update_tts_path db i v).1 _ _
    (audit_update_tts_path db i v)
  have e4 := appendsAudit_of_ite db (update_image_path db i v).1 _ _
    (audit_update_image_path db i v)
  have e5 := appendsAudit_of_ite db (update_status db i v).1 _ _
    (audit_update_status db i v)
  rw [docExists_eq_isSome] at e1 e2 e3 e4 e5
  exact ⟨⟨_, audit_insert_document db fn ot, rfl⟩, e1, e2, e3, e4, e5⟩

/-- Claim C8 (counterexample): `extract_text` on a supported extension whose
file is unreadable raises instead of returning empty text. -/
theorem ocr_raises_counterexample :
    ocr_extract_text fsMissing "missing.pdf" =
      Except.error "FileNotFoundError" := rfl

/-- Claim C8 (amended): the text-extraction capability returns empty text
without raising only for unsupported file types; for the supported
extensions (.pdf, .png, .jpg, .jpeg) an exception from the underlying
reader (e.g. an unreadable file) propagates to the caller. -/
theorem ocr_exception_contract (fs : FS) (path : String) :
    (pyLower (extOf path) ≠ ".pdf" → pyLower (extOf path) ≠ ".png" →
      pyLower (extOf path) ≠ ".jpg" → pyLower (extOf path) ≠ ".jpeg" →
      ocr_extract_text fs path = Except.ok "") ∧
    (∀ e, pyLower (extOf path) = ".pdf" →
      fs.pdf_read path = Except.error e →
      ocr_extract_text fs path = Except.error e) ∧
    (∀ e, (pyLower (extOf path) = ".png" ∨ pyLower (extOf path) = ".jpg" ∨
        pyLower (extOf path) = ".jpeg") →
      fs.image_read path = Except.error e →
      ocr_extract_text fs path = Except.error e) := by
  refine ⟨?_, ?_, ?_⟩
  · intro h1 h2 h3 h4
    simp [ocr_extract_text, h1, h2, h3, h4]
  · intro e h1 h2
    simp [ocr_extract_text, h1, h2, Except.map]
  · intro e h1 h2
    rcases h1 with h | h | h <;> simp [ocr_extract_text, h, h2, Except.map]

/-- Witness for C8's amended contract: an unsupported extension returns
empty text, and a missing PDF propagates the reader's exception. -/
theorem ocr_exception_contract_witness :
    ocr_extract_text fsMissing "notes.txt" = Except.ok "" :=
  (ocr_exception_contract fsMissing "notes.txt").1 (by decide) (by decide)
    (by decide) (by decide)

/-- Claim C3 (counterexample): with the oracle directing `extract_text` and the
OCR call raising `boom`, the workflow aborts — the exception escapes to
the caller and no failure event is surfaced. -/
theorem extract_text_exception_escapes_counterexample :
    (run_agentic_workflow dbFresh 1 envBadOcr 10).exn = some "boom" ∧
    (run_agentic_workflow dbFresh 1 envBadOcr 10).events = [] := by decide

/-- Claim C3 (amended): exceptions from the `summarize`, `tts` and
`generate_image` capability invocations are caught at the iteration
boundary, surfaced as a per-iteration failure event, and leave the loop
free to continue (no `break`, no escaping exception); the `extract_text`
invocation has no such guard. -/
theorem guarded_capability_exceptions_caught (db : Database) (doc_id : Nat)
    (e : StepEnv) (a : Action)
    (ha : a = Action.summarize ∨ a = Action.tts ∨ a = Action.generate_image) :
    ((exec_action db doc_id e a).exn = none ∧
     (exec_action db doc_id e a).brk = false) ∧
    (∀ ex, summarize_document db doc_id e.summarize_result = Except.error ex →
      exec_action db doc_id e Action.summarize =
        ⟨db, ["Error: " ++ ex], false, none⟩) ∧
    (∀ ex, text_to_speech db doc_id e.tts_result = Except.error ex →
      exec_action db doc_id e Action.tts =
        ⟨db, ["Error: " ++ ex], false, none⟩) ∧
    (∀ ex, generate_image_from_doc db doc_id e.image_result = Except.error ex →
      exec_action db doc_id e Action.generate_image =
        ⟨db, ["Error: " ++ ex], false, none⟩) := by
  refine ⟨?_, ?_, ?_, ?_⟩
  · rcases ha with h | h | h <;> subst h
    · cases hs : summarize_document db doc_id e.summarize_result with
      | error ex => simp [exec_action, hs]
      | ok v => obtain ⟨db1, s⟩ := v; simp [exec_action, hs]
    · cases hs : text_to_speech db doc_id e.tts_result with
      | error ex => simp [exec_action, hs]
      | ok v => obtain ⟨db1, p⟩ := v; simp [exec_action, hs]
    · cases hs : generate_image_from_doc db doc_id e.image_result with
      | error ex => simp [exec_action, hs]
      | ok v => obtain ⟨db1, p⟩ := v; simp [exec_action, hs]
  · intro ex hs; simp [exec_action, hs]
  · intro ex hs; simp [exec_action, hs]
  · intro ex hs; simp [exec_action, hs]

/-- Witness for C3's amended theorem at a concrete guarded action. -/
theorem guarded_capability_exceptions_caught_witness :
    (exec_action dbFresh 1 (envBadOcr 0) Action.summarize).exn = none ∧
    (exec_action dbFresh 1 (envBadOcr 0) Action.summarize).brk = false :=
  (guarded_capability_exceptions_caught dbFresh 1 (envBadOcr 0)
    Action.summarize (Or.inl rfl)).1

/-- Claim C4 (counterexample): the loop dispatches `tts` on a record whose
summary is empty; the capability declines and writes no field, yet the
iteration still persists the status value `tts_done`. -/
theorem decline_persists_status_counterexample :
    (get_document (run_agentic_workflow dbHello 1 envTtsDecline 1).db 1).map
      Doc.status = some "tts_done" ∧
    (get_document (run_agentic_workflow dbHello 1 envTtsDecline 1).db 1).map
      Doc.tts_path = some none := by decide

/-- Claim C4 (amended): when `tts` or `generate_image` is dispatched with an
empty summary, the capability declines (returns no result and touches no
field), but the iteration still writes the status value (`tts_done` /
`image_generated`); the four content fields are untouched. (`summarize`
performs no such precondition check at all: it invokes the external call
regardless of `extracted_text`.) -/
theorem decline_still_writes_status (db : Database) (doc_id : Nat)
    (doc : Doc) (e : StepEnv)
    (hd : get_document db doc_id = some doc)
    (hs : present doc.summary = false) :
    text_to_speech db doc_id e.tts_result = Except.ok (db, none) ∧
    generate_image_from_doc db doc_id e.image_result = Except.ok (db, none) ∧
    (exec_action db doc_id e Action.tts).db =
      (update_status db doc_id "tts_done").1 ∧
    (exec_action db doc_id e Action.generate_image).db =
      (update_status db doc_id "image_generated").1 ∧
    (∀ j, (get_document (exec_action db doc_id e Action.tts).db j).map
        contentFields = (get_document db j).map contentFields) ∧
    (∀ j, (get_document (exec_action db doc_id e Action.generate_image).db j).map
        contentFields = (get_document db j).map contentFields) := by
  have htts : text_to_speech db doc_id e.tts_result = Except.ok (db, none) := by
    simp [text_to_speech, hd, hs]
  have himg : generate_image_from_doc db doc_id e.image_result =
      Except.ok (db, none) := by
    simp [generate_image_from_doc, hd, hs]
  have hextts : (exec_action db doc_id e Action.tts).db =
      (update_status db doc_id "tts_done").1 := by
    simp [exec_action, htts]
  have heximg : (exec_action db doc_id e Action.generate_image).db =
      (update_status db doc_id "image_generated").1 := by
    simp [exec_action, himg]
  have hframe : ∀ s j,
      (get_document (update_status db doc_id s).1 j).map contentFields =
        (get_document db j).map contentFields := by
    intro s j
    rw [get_update_status]
    by_cases hji : j = doc_id
    · subst hji
      cases hdj : get_document db j <;> simp [contentFields]
    · simp [hji]
  exact ⟨htts, himg, hextts, heximg,
    fun j => by rw [hextts]; exact hframe "tts_done" j,
    fun j => by rw [heximg]; exact hframe "image_generated" j⟩

/-- Witness for C4's amended theorem on the concrete extracted-only record. -/
theorem decline_still_writes_status_witness :
    text_to_speech dbHello 1 (envTtsDecline 0).tts_result =
      Except.ok (dbHello, none) :=
  (decline_still_writes_status dbHello 1 docHello (envTtsDecline 0)
    (by decide) (by decide)).1

theorem run_loop_actions_le (doc_id : Nat) (env : Nat → StepEnv) :
    ∀ fuel db step, (run_loop doc_id env fuel db step).actions ≤ fuel := by
  intro fuel
  induction fuel with
  | zero => intro db step; simp [run_loop]
  | succ n ih =>
    intro db step
    simp only [run_loop]
    cases hplan : plan_for_step db doc_id (env step).oracle_output with
    | none => simp
    | some a =>
      cases hexn : (exec_action db doc_id (env step) a).exn with
      | some ex => simp [hexn]
      | none =>
        cases hbrk : (exec_action db doc_id (env step) a).brk with
        | true => simp [hexn, hbrk]
        | false =>
          simp [hexn, hbrk]
          have h := ih (exec_action db doc_id (env step) a).db (step + 1)
          omega

theorem fieldPresent_map_if (db db' : Database) (i : Nat) (g : Doc → Doc)
    (hg : ∀ j, get_document db' j =
      if j = i then (get_document db j).map g else get_document db j)
    (f : Doc → Option String)
    (hpres : ∀ d, present (f d) = true → present (f (g d)) = true) :
    ∀ j, fieldPresent db j f = true → fieldPresent db' j f = true := by
  intro j hp
  have hj := hg j
  by_cases hji : j = i
  · rw [if_pos hji] at hj
    cases hd : get_document db j with
    | none => simp [fieldPresent, hd] at hp
    | some d =>
      rw [hd] at hj
      simp [fieldPresent, hd] at hp
      simp [fieldPresent, hj, Option.map]
      exact hpres d hp
  · rw [if_neg hji] at hj
    simp only [fieldPresent, hj] at *
    exact hp

theorem monoStep_refl (db : Database) : monoStep db db :=
  fun _ => ⟨id, id, id, id⟩

theorem monoStep_trans {db1 db2 db3 : Database} (h1 : monoStep db1 db2)
    (h2 : monoStep db2 db3) : monoStep db1 db3 := by
  intro j
  obtain ⟨a1, b1, c1, d1⟩ := h1 j
  obtain ⟨a2, b2, c2, d2⟩ := h2 j
  exact ⟨fun h => a2 (a1 h), fun h => b2 (b1 h),
    fun h => c2 (c1 h), fun h => d2 (d1 h)⟩

theorem monoStep_update_status (db : Database) (i : Nat) (s : String) :
    monoStep db (update_status db i s).1 := by
  intro j
  exact ⟨fieldPresent_map_if db _ i _ (get_update_status db i s)
      Doc.extracted_text (fun d hp => hp) j,
    fieldPresent_map_if db _ i _ (get_update_status db i s)
      Doc.summary (fun d hp => hp) j,
    fieldPresent_map_if db _ i _ (get_update_status db i s)
      Doc.tts_path (fun d hp => hp) j,
    fieldPresent_map_if db _ i _ (get_update_status db i s)
      Doc.image_path (fun d hp => hp) j⟩

theorem monoStep_update_extracted_text (db : Database) (i : Nat) (t : String)
    (ht : t.data.isEmpty = false) :
    monoStep db (update_extracted_text db i t).1 := by
  intro j
  exact ⟨fieldPresent_map_if db _ i _ (get_update_extracted_text db i t)
      Doc.extracted_text (fun d _ => by simp [present, ht]) j,
    fieldPresent_map_if db _ i _ (get_update_extracted_text db i t)
      Doc.summary (fun d hp => hp) j,
    fieldPresent_map_if db _ i _ (get_update_extracted_text db i t)
      Doc.tts_path (fun d hp => hp) j,
    fieldPresent_map_if db _ i _ (get_update_extracted_text db i t)
      Doc.image_path (fun d hp => hp) j⟩

theorem monoStep_update_summary (db : Database) (i : Nat) (s : String)
    (hs : s.data.isEmpty = false) :
    monoStep db (update_summary db i s).1 := by
  intro j
  exact ⟨fieldPresent_map_if db _ i _ (get_update_summary db i s)
      Doc.extracted_text (fun d hp => hp) j,
    fieldPresent_map_if db _ i _ (get_update_summary db i s)
      Doc.summary (fun d _ => by simp [present, hs]) j,
    fieldPresent_map_if db _ i _ (get_update_summary db i s)
      Doc.tts_path (fun d hp => hp) j,
    fieldPresent_map_if db _ i _ (get_update_summary db i s)
      Doc.image_path (fun d hp => hp) j⟩

theorem monoStep_update_tts_path (db : Database) (i : Nat) (p : String)
    (hp : p.data.isEmpty = false) :
    monoStep db (update_tts_path db i p).1 := by
  intro j
  exact ⟨fieldPresent_map_if db _ i _ (get_update_tts_path db i p)
      Doc.extracted_text (fun d h => h) j,
    fieldPresent_map_if db _ i _ (get_update_tts_path db i p)
      Doc.summary (fun d h => h) j,
    fieldPresent_map_if db _ i _ (get_update_tts_path db i p)
      Doc.tts_path (fun d _ => by simp [present, hp]) j,
    fieldPresent_map_if db _ i _ (get_update_tts_path db i p)
      Doc.image_path (fun d h => h) j⟩

theorem monoStep_update_image_path (db : Database) (i : Nat) (p : String)
    (hp : p.data.isEmpty = false) :
    monoStep db (update_image_path db i p).1 := by
  intro j
  exact ⟨fieldPresent_map_if db _ i _ (get_update_image_path db i p)
      Doc.extracted_text (fun d h => h) j,
    fieldPresent_map_if db _ i _ (get_update_image_path db i p)
      Doc.summary (fun d h => h) j,
    fieldPresent_map_if db _ i _ (get_update_image_path db i p)
      Doc.tts_path (fun d h => h) j,
    fieldPresent_map_if db _ i _ (get_update_image_path db i p)
      Doc.image_path (fun d _ => by simp [present, hp]) j⟩

theorem string_append_isEmpty_false (s t : String)
    (h : s.data.isEmpty = false) : (s ++ t).data.isEmpty = false := by
  cases s with | mk l =>
  cases t with | mk m =>
  show (l ++ m).isEmpty = false
  cases l with
  | nil => simp [List.isEmpty] at h
  | cons a as => simp [List.isEmpty]

theorem audio_path_nonempty (d : Nat) :
    ("output/audio/doc_" ++ toString d ++ ".mp3").data.isEmpty = false :=
  string_append_isEmpty_false _ _
    (string_append_isEmpty_false "output/audio/doc_" _ rfl)

theorem image_path_nonempty (d : Nat) :
    ("output/images/doc_" ++ toString d ++ ".png").data.isEmpty = false :=
  string_append_isEmpty_false _ _
    (string_append_isEmpty_false "output/images/doc_" _ rfl)

theorem exec_action_mono (db : Database) (doc_id : Nat) (e : StepEnv)
    (a : Action) (hc : envClean e = true) :
    monoStep db (exec_action db doc_id e a).db := by
  cases a with
  | complete =>
    simpa [exec_action] using monoStep_update_status db doc_id "complete"
  | extract_text =>
    cases hd : get_document db doc_id with
    | none => simpa [exec_action, hd] using monoStep_refl db
    | some doc =>
      cases hfe : e.file_exists with
      | false => simpa [exec_action, hd, hfe] using monoStep_refl db
      | true =>
        cases hocr : e.ocr_result with
        | error ex => simpa [exec_action, hd, hfe, hocr] using monoStep_refl db
        | ok t =>
          have ht : t.data.isEmpty = false := by
            have hc' := hc
            simp [envClean, hocr] at hc'
            cases htd : t.data with
            | nil => exact absurd htd hc'.1
            | cons x xs => rfl
          simpa [exec_action, hd, hfe, hocr] using
            monoStep_trans (monoStep_update_extracted_text db doc_id t ht)
              (monoStep_update_status _ doc_id "text_extracted")
  | summarize =>
    cases hd : get_document db doc_id with
    | none => simpa [exec_action, summarize_document, hd] using monoStep_refl db
    | some doc =>
      cases hsr : e.summarize_result with
      | error ex =>
        simpa [exec_action, summarize_document, hd, hsr] using monoStep_refl db
      | ok content =>
        have hs : (pyStrip content).data.isEmpty = false := by
          have hc' := hc
          simp [envClean, hsr] at hc'
          cases htd : (pyStrip content).data with
          | nil => exact absurd htd hc'.2
          | cons x xs => rfl
        simpa [exec_action, summarize_document, hd, hsr] using
          monoStep_trans
            (monoStep_update_summary db doc_id (pyStrip content) hs)
            (monoStep_update_status _ doc_id "summarized")
  | tts =>
    cases hd : get_document db doc_id with
    | none => simpa [exec_action, text_to_speech, hd] using monoStep_refl db
    | some doc =>
      cases hps : present doc.summary with
      | false =>
        simpa [exec_action, text_to_speech, hd, hps] using
          monoStep_update_status db doc_id "tts_done"
      | true =>
        cases hsp : e.tts_result with
        | error ex =>
          simpa [exec_action, text_to_speech, hd, hps, hsp] using
            monoStep_refl db
        | ok u =>
          simpa [exec_action, text_to_speech, hd, hps, hsp] using
            monoStep_trans
              (monoStep_update_tts_path db doc_id _ (audio_path_nonempty doc_id))
              (monoStep_update_status _ doc_id "tts_done")
  | generate_image =>
    cases hd : get_document db doc_id with
    | none =>
      simpa [exec_action, generate_image_from_doc, hd] using monoStep_refl db
    | some doc =>
      cases hps : present doc.summary with
      | false =>
        simpa [exec_action, generate_image_from_doc, hd, hps] using
          monoStep_update_status db doc_id "image_generated"
      | true =>
        cases hsp : e.image_result with
        | error ex =>
          simpa [exec_action, generate_image_from_doc, hd, hps, hsp] using
            monoStep_refl db
        | ok u =>
          simpa [exec_action, generate_image_from_doc, hd, hps, hsp] using
            monoStep_trans
              (monoStep_update_image_path db doc_id _
                (image_path_nonempty doc_id))
              (monoStep_update_status _ doc_id "image_generated")

theorem run_loop_mono (doc_id : Nat) (env : Nat → StepEnv)
    (hc : ∀ n, envClean (env n) = true) :
    ∀ fuel db step, monoStep db (run_loop doc_id env fuel db step).db := by
  intro fuel
  induction fuel with
  | zero => intro db step; exact monoStep_refl db
  | succ n ih =>
    intro db step
    simp only [run_loop]
    cases hplan : plan_for_step db doc_id (env step).oracle_output with
    | none => exact monoStep_refl db
    | some a =>
      cases hexn : (exec_action db doc_id (env step) a).exn with
      | some ex =>
        simpa [hexn] using exec_action_mono db doc_id (env step) a (hc step)
      | none =>
        cases hbrk : (exec_action db doc_id (env step) a).brk with
        | true =>
          simpa [hexn, hbrk] using
            exec_action_mono db doc_id (env step) a (hc step)
        | false =>
          simpa [hexn, hbrk] using
            monoStep_trans (exec_action_mono db doc_id (env step) a (hc step))
              (ih (exec_action db doc_id (env step) a).db (step + 1))

/-- Claim C5 (counterexample): under an oracle-driven decision the loop re-runs
`extract_text` on a record whose text is already present; the OCR call
returns empty text and the non-empty field is overwritten with the empty
value. -/
theorem monotonicity_counterexample :
    fieldPresent dbHello 1 Doc.extracted_text = true ∧
    fieldPresent (run_agentic_workflow dbHello 1 envEmptyOcr 1).db 1
      Doc.extracted_text = false := by decide

/-- Claim C5 (amended): provided every capability result an iteration writes is
non-empty (successful OCR reads and stripped summarization replies are
non-empty — the tts and image paths the code builds always are), once one
of the four content fields of any document is non-empty, no executed
action ever clears it, under any sequence of planner decisions including
oracle-driven ones. -/
theorem workflow_monotone (db : Database) (doc_id : Nat)
    (env : Nat → StepEnv) (max_steps : Nat) (i : Nat)
    (f : Doc → Option String)
    (hc : ∀ n, envClean (env n) = true)
    (hf : f = Doc.extracted_text ∨ f = Doc.summary ∨ f = Doc.tts_path ∨
      f = Doc.image_path)
    (hp : fieldPresent db i f = true) :
    fieldPresent (run_agentic_workflow db doc_id env max_steps).db i f = true := by
  have hm := run_loop_mono doc_id env hc max_steps db 0
  obtain ⟨m1, m2, m3, m4⟩ := hm i
  rcases hf with h | h | h | h <;> subst h
  · exact m1 hp
  · exact m2 hp
  · exact m3 hp
  · exact m4 hp

/-- Witness for C5's amended theorem: a clean world, one step on the
extracted-only record keeps `extracted_text` present. -/
theorem workflow_monotone_witness :
    fieldPresent (run_agentic_workflow dbHello 1 envGood 1).db 1
      Doc.extracted_text = true :=
  workflow_monotone dbHello 1 envGood 1 1 Doc.extracted_text
    (fun _ => rfl) (Or.inl rfl) (by decide)

/-- Claim C6: the workflow executor loop dispatches at most `max_steps` actions,
for every store, every document id and every behaviour of the external
world. -/
theorem workflow_step_bound (db : Database) (doc_id : Nat)
    (env : Nat → StepEnv) (max_steps : Nat) :
    (run_agentic_workflow db doc_id env max_steps).actions ≤ max_steps :=
  run_loop_actions_le doc_id env max_steps db 0

end DocAgent
